import Mathlib

/-!
Shallow embedding of the knesgoda/analyzer repository (src/analyzer.py and
src/app.py): the scene schema and validation boundary, the negative-prompt
repair, the instruction builder, and the two scene-sequencing and
reference-naming passes.  The theorems below settle the frozen claims C1
to C10 about this code.
-/

/-- The fixed canonical negative-prompt constant, src/analyzer.py lines 7-11
and src/app.py lines 16-20.  The three adjacent Python string literals
concatenate to this single string. -/
def SKYBOX_NEGATIVE_PROMPT : String :=
  "people, person, faces, crowds, animals, text, letters, signage, watermark, logo, UI, placeable props, furniture, vehicles, modern objects, anachronistic items, blurry"

/-- Character record, src/analyzer.py lines 16-22 (pydantic model) and
src/app.py lines 22-26 (plain class): the two declarations have the same
three string fields.  Note that role is a plain string field in both. -/
structure Character where
  name : String
  role : String
  visual_description : String
deriving DecidableEq

/-- Skybox record, src/analyzer.py lines 24-29 and src/app.py lines 28-32:
visual_prompt, negative_prompt and environment_type, all plain strings. -/
structure Skybox where
  visual_prompt : String
  negative_prompt : String
  environment_type : String
deriving DecidableEq

/-- Scene record, src/analyzer.py lines 31-37 and src/app.py lines 34-40. -/
structure Scene where
  location : String
  chapter_beat : String
  trigger_sentence : String
  characters : List Character
  skybox_environment : Skybox
deriving DecidableEq

/-- ChapterOutput record, src/analyzer.py lines 39-40: the validated shape
of one chapter payload. -/
structure ChapterOutput where
  scenes : List Scene
deriving DecidableEq

/-- Python format specifier 02 applied to a natural number n, as in the
f-strings of src/analyzer.py line 168 and src/app.py line 128: the decimal
digits of n, zero padded on the left to width at least two.  For a natural
number, the rendered digits have length one exactly when n is below ten, so
the pad adds a single zero in that case and nothing otherwise. -/
def formatPad2 (n : Nat) : String :=
  if n < 10 then "0" ++ Nat.repr n else Nat.repr n

/-- Scene identifier derivation, src/analyzer.py line 168 and src/app.py
line 128: the string ch followed by the zero-padded global index. -/
def sceneId (global_scene_index : Nat) : String :=
  "ch" ++ formatPad2 global_scene_index

/- ----------------------------------------------------------------------
Reference naming in src/analyzer.py, function sequence_and_format
(lines 157-191).
---------------------------------------------------------------------- -/

/-- Character reference assignment of the loop at src/analyzer.py lines
180-188: every character whose role equals Main receives the mc filename
(scene_id followed by mc01), every other character receives scene_id, sc
and the zero-padded running counter, which starts at 1 and is incremented
only when consumed. -/
def analyzerCharRefs (scene_id : String) : List Character → Nat → List (Character × String)
  | [], _ => []
  | c :: cs, sc_counter =>
    if c.role == "Main" then
      (c, scene_id ++ "mc01") :: analyzerCharRefs scene_id cs sc_counter
    else
      (c, scene_id ++ "sc" ++ formatPad2 sc_counter) :: analyzerCharRefs scene_id cs (sc_counter + 1)

/-- Scene loop of sequence_and_format, src/analyzer.py lines 164-191: the
global scene index starts at the given value and increases by one per
scene; each scene is emitted with its scene id and its per-character
reference assignment (secondary counter restarting at 1 per scene). -/
def sequenceFormatFrom : List Scene → Nat → List (String × List (Character × String))
  | [], _ => []
  | s :: ss, global_scene_index =>
    (sceneId global_scene_index, analyzerCharRefs (sceneId global_scene_index) s.characters 1)
      :: sequenceFormatFrom ss (global_scene_index + 1)

/-- The sequencer entry point of src/analyzer.py, sequence_and_format
(lines 157-191), with the counter initialised to 1 as at line 164.  The
console rendering is projected to the scene id and the per-character
reference assignment it prints. -/
def sequence_and_format (all_scenes_from_book : List Scene) : List (String × List (Character × String)) :=
  sequenceFormatFrom all_scenes_from_book 1

/- ----------------------------------------------------------------------
Reference naming in src/app.py, function generate_documents
(lines 104-190).
---------------------------------------------------------------------- -/

/-- The main_chars list comprehension of src/app.py line 158: the
characters whose role equals Main, in list order. -/
def appMainChars (chars : List Character) : List Character :=
  chars.filter (fun c => c.role == "Main")

/-- The other_chars list comprehension of src/app.py line 159: the
characters whose role differs from Main, in list order. -/
def appOtherChars (chars : List Character) : List Character :=
  chars.filter (fun c => !(c.role == "Main"))

/-- The main selection with fallback of src/app.py lines 158-164: if no
character is tagged Main and the list is nonempty, the first character is
taken as the main list and the rest as the others; otherwise the filtered
main and other lists are used. -/
def appSelect (chars : List Character) : List Character × List Character :=
  match appMainChars chars, chars with
  | [], c :: cs => ([c], cs)
  | mains, _ => (mains, appOtherChars chars)

/-- The secondary-character loop of src/app.py lines 174-179: each
remaining character receives scene_id, sc and the zero-padded running
index, which starts at the given value and increases by one per entry. -/
def appSecRefs (scene_id : String) : List Character → Nat → List (Character × String)
  | [], _ => []
  | c :: cs, sc_idx =>
    (c, scene_id ++ "sc" ++ formatPad2 sc_idx) :: appSecRefs scene_id cs (sc_idx + 1)

/-- The character section of document 3 for one scene, src/app.py lines
156-179: the head of the selected main list (when nonempty) receives the
mc01 reference, then the selected others receive sc references numbered
from 1. -/
def appCharRefs (scene_id : String) (chars : List Character) : List (Character × String) :=
  (match (appSelect chars).1 with
   | [] => []
   | mc :: _ => [(mc, scene_id ++ "mc01")]) ++ appSecRefs scene_id (appSelect chars).2 1

/-- Scene loop of generate_documents, src/app.py lines 124-181: the global
index starts at the given value and increases by one per scene; each scene
is emitted with its scene id and its character reference section. -/
def generateDocsFrom : List Scene → Nat → List (String × List (Character × String))
  | [], _ => []
  | s :: ss, global_idx =>
    (sceneId global_idx, appCharRefs (sceneId global_idx) s.characters)
      :: generateDocsFrom ss (global_idx + 1)

/-- The document generator of src/app.py, generate_documents (lines
104-190), with the counter initialised to 1 as at line 125.  The word
document rendering is projected to the scene id and character reference
assignment written into document 3. -/
def generate_documents (all_scenes : List Scene) : List (String × List (Character × String)) :=
  generateDocsFrom all_scenes 1

/- ----------------------------------------------------------------------
The sequencing pipeline over chapters (src/app.py lines 212-232): chapter
results are flattened in chapter order, then indexed from 1.
---------------------------------------------------------------------- -/

/-- Accumulation of chapter scene lists, src/app.py lines 212-227: the
all_scenes list starts empty and each chapter result is appended by
extend, in chapter order. -/
def allScenes (chapters : List (List Scene)) : List Scene :=
  chapters.foldl (fun acc chapter_scenes => acc ++ chapter_scenes) []

/-- Global index assignment over the flattened scene list, as performed by
the loops of src/app.py lines 125-181 and src/analyzer.py lines 164-191:
consecutive indices from the given start. -/
def assignIndices : List Scene → Nat → List (Nat × Scene)
  | [], _ => []
  | s :: ss, k => (k, s) :: assignIndices ss (k + 1)

/-- The sequencer over a list of chapter results: flatten in chapter order
(src/app.py lines 212-227) and assign global indices from 1 (src/app.py
line 125, src/analyzer.py line 164). -/
def sequenceScenes (chapters : List (List Scene)) : List (Nat × Scene) :=
  assignIndices (allScenes chapters) 1

/- ----------------------------------------------------------------------
The instruction builder, src/analyzer.py generate_system_prompt
(lines 44-69).
---------------------------------------------------------------------- -/

/-- Text of the f-string of src/analyzer.py lines 48-69 before the
book_title interpolation point. -/
def promptPre : String :=
  "\n    You are the Cinematic Director for the AR project: \""

/-- Text of the f-string of src/analyzer.py lines 48-69 after the
book_title interpolation point, including the scene selection and output
rules. -/
def promptPost : String :=
  " | AR Scene Pack | Outputs v1\".\n    \n    YOUR GOAL: Deep read the provided text and extract the most exciting cinematic moments for Augmented Reality.\n    \n    RULES FOR SCENE SELECTION:\n    1. Minimum Coverage: Find at least TWO scenes in this text chunk.\n    2. Epic Scaling: If the text contains high drama, big reveals, or spectacle, generate as many scenes as needed. There is no upper limit.\n    3. No Duplicates: No two scenes can share the same trigger sentence.\n    \n    RULES FOR OUTPUTS:\n    1. Trigger Sentences: Must be verbatim from the text. Choose the strongest hook line.\n    2. Skybox Prompts: \n       - POV: Ground view, center eye level.\n       - Environment ONLY. No people, no animals, no props.\n       - Format: [Indoors/Outdoors] [Setting] [Era], [Time/Weather/Lighting], [Style: 3D watercolor].\n    3. Character Descriptions: \n       - Visuals ONLY. Do NOT include \"Text cue\" or dialogue.\n       - Style: Full-body character cutout, centered, consistent scale, high detail, no background, no shadow, no text, 4k.\n       \n    Return the result strictly as a valid JSON object matching the requested schema.\n    "

/-- The instruction builder, src/analyzer.py lines 44-69: a pure function
of the book title alone; the f-string interpolates the title between the
two fixed text segments. -/
def generate_system_prompt (book_title : String) : String :=
  promptPre ++ book_title ++ promptPost

/- ----------------------------------------------------------------------
Untyped payloads and the validation boundary, src/analyzer.py lines 16-40
(pydantic models) and 141-153 (analyze_chapter_content).
---------------------------------------------------------------------- -/

/-- Untyped JSON-like value: the decoded model payload shape that the
pydantic validation of src/analyzer.py consumes. -/
inductive J where
  | str (s : String)
  | num (n : Int)
  | bool (b : Bool)
  | null
  | arr (elems : List J)
  | obj (fields : List (String × J))

/-- Lookup of a key in a decoded object, first occurrence wins. -/
def getField (fields : List (String × J)) (key : String) : Option J :=
  (fields.find? (fun kv => kv.1 == key)).map (fun kv => kv.2)

/-- Required plain string field, as validated by pydantic for the str
fields declared without defaults in src/analyzer.py lines 16-40: missing
key or non-string value fails with a message naming the field path. -/
def reqStr (path : String) (fields : List (String × J)) (key : String) : Except String String :=
  match getField fields key with
  | none => Except.error (path ++ "." ++ key ++ ": Field required")
  | some (J.str s) => Except.ok s
  | some _ => Except.error (path ++ "." ++ key ++ ": Input should be a valid string")

/-- Validation of one character record against the Character model of
src/analyzer.py lines 16-22: three required string fields.  The role field
is declared as a plain str, so any string value is accepted for it. -/
def validateCharacter (path : String) (j : J) : Except String Character :=
  match j with
  | J.obj fields => do
    let n ← reqStr path fields "name"
    let r ← reqStr path fields "role"
    let v ← reqStr path fields "visual_description"
    Except.ok { name := n, role := r, visual_description := v }
  | _ => Except.error (path ++ ": Input should be a valid dictionary")

/-- Validation of a character list element by element, with the element
index appended to the field path. -/
def validateCharacters (path : String) : Nat → List J → Except String (List Character)
  | _, [] => Except.ok []
  | idx, j :: js => do
    let c ← validateCharacter (path ++ "." ++ Nat.repr idx) j
    let rest ← validateCharacters path (idx + 1) js
    Except.ok (c :: rest)

/-- Validation of one skybox record against the Skybox model of
src/analyzer.py lines 24-29: visual_prompt and environment_type are
required string fields (environment_type is a plain str, so any string is
accepted); negative_prompt has the canonical constant as pydantic default,
so a missing key receives the constant and any present string value,
including the empty string, is kept as supplied. -/
def validateSkybox (path : String) (j : J) : Except String Skybox :=
  match j with
  | J.obj fields => do
    let vp ← reqStr path fields "visual_prompt"
    let et ← reqStr path fields "environment_type"
    let np ← (match getField fields "negative_prompt" with
      | none => Except.ok SKYBOX_NEGATIVE_PROMPT
      | some (J.str s) => Except.ok s
      | some _ => Except.error (path ++ ".negative_prompt: Input should be a valid string"))
    Except.ok { visual_prompt := vp, negative_prompt := np, environment_type := et }
  | _ => Except.error (path ++ ": Input should be a valid dictionary")

/-- The negative-prompt default injection of src/analyzer.py line 28 and
src/app.py line 29 in isolation: an absent value becomes the canonical
constant, a present value is kept as supplied. -/
def repairNegativePrompt (negative_prompt : Option String) : String :=
  negative_prompt.getD SKYBOX_NEGATIVE_PROMPT

/-- The Skybox constructor of src/app.py lines 28-32: the keyword argument
negative_prompt defaults to the canonical constant when not passed. -/
def mkSkyboxApp (visual_prompt : String) (environment_type : String) (negative_prompt : Option String) : Skybox :=
  { visual_prompt := visual_prompt
    negative_prompt := repairNegativePrompt negative_prompt
    environment_type := environment_type }

/-- Validation of one scene record against the Scene model of
src/analyzer.py lines 31-37: three required string fields, a required
character list and a required skybox record. -/
def validateScene (path : String) (j : J) : Except String Scene :=
  match j with
  | J.obj fields => do
    let loc ← reqStr path fields "location"
    let beat ← reqStr path fields "chapter_beat"
    let trig ← reqStr path fields "trigger_sentence"
    let chars ← (match getField fields "characters" with
      | none => Except.error (path ++ ".characters: Field required")
      | some (J.arr js) => validateCharacters (path ++ ".characters") 0 js
      | some _ => Except.error (path ++ ".characters: Input should be a valid list"))
    let sky ← (match getField fields "skybox_environment" with
      | none => Except.error (path ++ ".skybox_environment: Field required")
      | some sj => validateSkybox (path ++ ".skybox_environment") sj)
    Except.ok { location := loc, chapter_beat := beat, trigger_sentence := trig,
                characters := chars, skybox_environment := sky }
  | _ => Except.error (path ++ ": Input should be a valid dictionary")

/-- Validation of a scene list element by element, with the element index
appended to the field path. -/
def validateScenes (path : String) : Nat → List J → Except String (List Scene)
  | _, [] => Except.ok []
  | idx, j :: js => do
    let s ← validateScene (path ++ "." ++ Nat.repr idx) j
    let rest ← validateScenes path (idx + 1) js
    Except.ok (s :: rest)

/-- Validation of a whole payload against the ChapterOutput model of
src/analyzer.py lines 39-40: a required scenes list. -/
def validateChapterOutput (j : J) : Except String ChapterOutput :=
  match j with
  | J.obj fields =>
    match getField fields "scenes" with
    | none => Except.error "scenes: Field required"
    | some (J.arr js) => do
      let ss ← validateScenes "scenes" 0 js
      Except.ok { scenes := ss }
    | some _ => Except.error "scenes: Input should be a valid list"
  | _ => Except.error "Input should be a valid dictionary"

/-- The coverage warning line printed at src/analyzer.py line 146. -/
def COVERAGE_WARNING : String :=
  "WARNING: Coverage too low. Triggering re-prompt for Epic Scaling..."

/-- Result of one chapter analysis: the returned scene list of
src/analyzer.py lines 149 and 153 together with the diagnostic lines the
function prints at lines 146 and 152. -/
structure ChapterResult where
  scenes : List Scene
  messages : List String
deriving DecidableEq

/-- The validation boundary of analyze_chapter_content, src/analyzer.py
lines 141-153, applied to its decoded payload (the hardcoded mock payload
stands in for the decoded model response in the source; the double-star
unpacking at line 142 consumes the payload as a keyword record).  On
validation success the scenes are returned, with the coverage warning
printed when fewer than two scenes were produced (lines 144-148); on a
validation error the diagnostic is printed and the empty list is returned
(lines 151-153).  The embedding is a total function: no exception escapes
the boundary. -/
def analyze_chapter_content (payload : List (String × J)) : ChapterResult :=
  match validateChapterOutput (J.obj payload) with
  | Except.ok out =>
    { scenes := out.scenes
      messages := if out.scenes.length < 2 then [COVERAGE_WARNING] else [] }
  | Except.error e => { scenes := [], messages := ["Data Validation Failed: " ++ e] }

/-- The per-chapter analysis loop of the caller, src/app.py lines 215-227:
each chapter payload is analysed independently, in order. -/
def processChapters (payloads : List (List (String × J))) : List ChapterResult :=
  payloads.map analyze_chapter_content

/- ----------------------------------------------------------------------
Measurement helpers used only to state properties (not part of the
embedded code).
---------------------------------------------------------------------- -/

/-- Gauge: the dense secondary reference identifiers scene_id sc k for n
consecutive values of k starting at the given base. -/
def secIds (scene_id : String) : Nat → Nat → List String
  | _, 0 => []
  | k, n + 1 => (scene_id ++ "sc" ++ formatPad2 k) :: secIds scene_id (k + 1) n

/-- Gauge: whether pat occurs as a contiguous run inside a character
list. -/
def charsContain (pat : List Char) : List Char → Bool
  | [] => pat.isEmpty
  | c :: cs => pat.isPrefixOf (c :: cs) || charsContain pat cs

/-- Gauge: whether the second string occurs as a contiguous substring of
the first. -/
def strContains (s pat : String) : Bool :=
  charsContain pat.data s.data

/- ----------------------------------------------------------------------
Concrete demonstration values used by witnesses and counterexamples.
---------------------------------------------------------------------- -/

/-- Demonstration character B with role Secondary. -/
def charB : Character :=
  { name := "B", role := "Secondary", visual_description := "b" }

/-- Demonstration character A with role Main. -/
def charA : Character :=
  { name := "A", role := "Main", visual_description := "a" }

/-- Demonstration character C with role Secondary. -/
def charC : Character :=
  { name := "C", role := "Secondary", visual_description := "c" }

/-- Demonstration character X with role Main. -/
def charX : Character :=
  { name := "X", role := "Main", visual_description := "x" }

/-- Demonstration character Y with role Main. -/
def charY : Character :=
  { name := "Y", role := "Main", visual_description := "y" }

/-- Demonstration skybox value. -/
def demoSky : Skybox :=
  { visual_prompt := "v", negative_prompt := "n", environment_type := "Indoors" }

/-- Demonstration scene with one Main and one Secondary character. -/
def demoScene1 : Scene :=
  { location := "L1", chapter_beat := "P1", trigger_sentence := "T1",
    characters := [charB, charA], skybox_environment := demoSky }

/-- Demonstration scene with one Main and one Secondary character in the
other order. -/
def demoScene2 : Scene :=
  { location := "L2", chapter_beat := "P2", trigger_sentence := "T2",
    characters := [charX, charC], skybox_environment := demoSky }

/-- Demonstration decoded scene payload with one Main character. -/
def demoSceneJ : J :=
  J.obj [("location", J.str "L"), ("chapter_beat", J.str "P"), ("trigger_sentence", J.str "T"),
         ("characters", J.arr [J.obj [("name", J.str "A"), ("role", J.str "Main"), ("visual_description", J.str "d")]]),
         ("skybox_environment", J.obj [("visual_prompt", J.str "v"), ("environment_type", J.str "Indoors"), ("negative_prompt", J.str "n")])]

/-- Demonstration decoded chapter payload holding a single scene. -/
def demoPayload : List (String × J) :=
  [("scenes", J.arr [demoSceneJ])]

/-- The typed chapter output that validates from demoPayload. -/
def demoOut : ChapterOutput :=
  { scenes := [{ location := "L", chapter_beat := "P", trigger_sentence := "T",
                 characters := [{ name := "A", role := "Main", visual_description := "d" }],
                 skybox_environment := demoSky }] }

/- ----------------------------------------------------------------------
Helper lemmas.
---------------------------------------------------------------------- -/

set_option maxRecDepth 100000

lemma foldl_append_eq (chapters : List (List Scene)) :
    ∀ acc : List Scene, chapters.foldl (fun a cs => a ++ cs) acc = acc ++ chapters.flatten := by
  induction chapters with
  | nil => intro acc; simp
  | cons c cs ih => intro acc; simp [List.foldl, ih, List.append_assoc]

lemma allScenes_eq_flatten (chapters : List (List Scene)) :
    allScenes chapters = chapters.flatten := by
  simpa using foldl_append_eq chapters []

lemma assignIndices_length (ss : List Scene) :
    ∀ k : Nat, (assignIndices ss k).length = ss.length := by
  induction ss with
  | nil => intro k; rfl
  | cons s t ih => intro k; simp [assignIndices, ih]

lemma assignIndices_map_fst (ss : List Scene) :
    ∀ k : Nat, (assignIndices ss k).map Prod.fst = List.range' k ss.length := by
  induction ss with
  | nil => intro k; rfl
  | cons s t ih => intro k; simp [assignIndices, List.range'_succ, ih]

lemma assignIndices_map_snd (ss : List Scene) :
    ∀ k : Nat, (assignIndices ss k).map Prod.snd = ss := by
  induction ss with
  | nil => intro k; rfl
  | cons s t ih => intro k; simp [assignIndices, ih]

lemma scRef_ne_mcRef (sid : String) (k : Nat) :
    ¬ (sid ++ "sc" ++ formatPad2 k = sid ++ "mc01") := by
  intro h
  have h2 := congrArg String.data h
  rw [String.data_append, String.data_append, String.data_append, List.append_assoc] at h2
  have h3 := List.append_cancel_left h2
  rw [show "sc".data = ['s', 'c'] from rfl, show "mc01".data = ['m', 'c', '0', '1'] from rfl] at h3
  rw [List.cons_append, List.cons_append, List.nil_append] at h3
  injection h3 with h4 h5
  exact absurd h4 (by decide)

lemma appSecRefs_map_snd (sid : String) :
    ∀ (cs : List Character) (k : Nat),
      (appSecRefs sid cs k).map Prod.snd = secIds sid k cs.length := by
  intro cs
  induction cs with
  | nil => intro k; rfl
  | cons c t ih => intro k; simp [appSecRefs, secIds, ih]

lemma appSecRefs_countP_mc (sid : String) :
    ∀ (cs : List Character) (k : Nat),
      (appSecRefs sid cs k).countP (fun q => q.2 == sid ++ "mc01") = 0 := by
  intro cs
  induction cs with
  | nil => intro k; rfl
  | cons c t ih =>
    intro k
    have hne := scRef_ne_mcRef sid k
    simp [appSecRefs, List.countP_cons, ih, hne]

lemma appSecRefs_filter_not_mc (sid : String) :
    ∀ (cs : List Character) (k : Nat),
      (appSecRefs sid cs k).filter (fun q => !(q.2 == sid ++ "mc01")) = appSecRefs sid cs k := by
  intro cs
  induction cs with
  | nil => intro k; rfl
  | cons c t ih =>
    intro k
    have hne := scRef_ne_mcRef sid k
    simp [appSecRefs, List.filter_cons, ih, hne]

lemma analyzerCharRefs_filter_main (sid : String) :
    ∀ (cs : List Character) (k : Nat),
      (analyzerCharRefs sid cs k).filter (fun q => q.1.role == "Main")
        = (cs.filter (fun c => c.role == "Main")).map (fun c => (c, sid ++ "mc01")) := by
  intro cs
  induction cs with
  | nil => intro k; rfl
  | cons c t ih =>
    intro k
    by_cases hc : c.role = "Main"
    · simp [analyzerCharRefs, List.filter_cons, hc, ih]
    · simp [analyzerCharRefs, List.filter_cons, hc, ih]

lemma analyzerCharRefs_filter_not_main (sid : String) :
    ∀ (cs : List Character) (k : Nat),
      (analyzerCharRefs sid cs k).filter (fun q => !(q.1.role == "Main"))
        = appSecRefs sid (cs.filter (fun c => !(c.role == "Main"))) k := by
  intro cs
  induction cs with
  | nil => intro k; rfl
  | cons c t ih =>
    intro k
    by_cases hc : c.role = "Main"
    · simp [analyzerCharRefs, List.filter_cons, hc, ih]
    · simp [analyzerCharRefs, appSecRefs, List.filter_cons, hc, ih]

lemma analyzerCharRefs_countP_mc (sid : String) :
    ∀ (cs : List Character) (k : Nat),
      (analyzerCharRefs sid cs k).countP (fun q => q.2 == sid ++ "mc01")
        = cs.countP (fun c => c.role == "Main") := by
  intro cs
  induction cs with
  | nil => intro k; rfl
  | cons c t ih =>
    intro k
    by_cases hc : c.role = "Main"
    · simp [analyzerCharRefs, List.countP_cons, hc, ih]
    · have hne := scRef_ne_mcRef sid k
      simp [analyzerCharRefs, List.countP_cons, hc, ih, hne]

lemma analyzerCharRefs_filter_not_mcref (sid : String) :
    ∀ (cs : List Character) (k : Nat),
      (analyzerCharRefs sid cs k).filter (fun q => !(q.2 == sid ++ "mc01"))
        = appSecRefs sid (cs.filter (fun c => !(c.role == "Main"))) k := by
  intro cs
  induction cs with
  | nil => intro k; rfl
  | cons c t ih =>
    intro k
    by_cases hc : c.role = "Main"
    · simp [analyzerCharRefs, List.filter_cons, hc, ih]
    · have hne := scRef_ne_mcRef sid k
      simp [analyzerCharRefs, appSecRefs, List.filter_cons, hc, ih, hne]

lemma appMainChars_of_find_some :
    ∀ (chars : List Character) (m : Character),
      chars.find? (fun c => c.role == "Main") = some m →
      ∃ rest, appMainChars chars = m :: rest := by
  intro chars
  induction chars with
  | nil => intro m h; simp [List.find?] at h
  | cons c t ih =>
    intro m h
    by_cases hc : c.role = "Main"
    · rw [List.find?_cons_of_pos _ (by simp [hc])] at h
      injection h with h2
      subst h2
      exact ⟨appMainChars t, by simp [appMainChars, List.filter_cons, hc]⟩
    · rw [List.find?_cons_of_neg _ (by simp [hc])] at h
      rcases ih m h with ⟨rest, hrest⟩
      exact ⟨rest, by simp [appMainChars, List.filter_cons, hc] at hrest ⊢; exact hrest⟩

lemma appMainChars_of_find_none :
    ∀ chars : List Character,
      chars.find? (fun c => c.role == "Main") = none → appMainChars chars = [] := by
  intro chars
  induction chars with
  | nil => intro h; rfl
  | cons c t ih =>
    intro h
    by_cases hc : c.role = "Main"
    · rw [List.find?_cons_of_pos _ (by simp [hc])] at h
      cases h
    · rw [List.find?_cons_of_neg _ (by simp [hc])] at h
      have ht := ih h
      simp only [appMainChars, List.filter_cons] at ht ⊢
      rw [if_neg (by simp [hc])]
      exact ht

lemma appSelect_of_mains_cons (chars : List Character) (m : Character) (rest : List Character)
    (h : appMainChars chars = m :: rest) :
    appSelect chars = (m :: rest, appOtherChars chars) := by
  unfold appSelect
  rw [h]

lemma appSelect_of_mains_nil_cons (c : Character) (cs : List Character)
    (h : appMainChars (c :: cs) = []) :
    appSelect (c :: cs) = ([c], cs) := by
  unfold appSelect
  rw [h]

lemma appCharRefs_of_mains_cons (sid : String) (chars : List Character) (m : Character)
    (rest : List Character) (h : appMainChars chars = m :: rest) :
    appCharRefs sid chars = (m, sid ++ "mc01") :: appSecRefs sid (appOtherChars chars) 1 := by
  unfold appCharRefs
  rw [appSelect_of_mains_cons chars m rest h]
  rfl

lemma appCharRefs_of_mains_nil_cons (sid : String) (c : Character) (cs : List Character)
    (h : appMainChars (c :: cs) = []) :
    appCharRefs sid (c :: cs) = (c, sid ++ "mc01") :: appSecRefs sid cs 1 := by
  unfold appCharRefs
  rw [appSelect_of_mains_nil_cons c cs h]
  rfl

lemma charRefs_agree (sid : String) (chars : List Character)
    (h : chars.countP (fun c => c.role == "Main") = 1) :
    appCharRefs sid chars
      = (analyzerCharRefs sid chars 1).filter (fun q => q.1.role == "Main")
        ++ (analyzerCharRefs sid chars 1).filter (fun q => !(q.1.role == "Main")) := by
  have hlen : (chars.filter (fun c => c.role == "Main")).length = 1 := by
    rw [← List.countP_eq_length_filter]; exact h
  rcases List.length_eq_one.mp hlen with ⟨m, hm⟩
  have hmain : appMainChars chars = [m] := by simpa [appMainChars] using hm
  rw [appCharRefs_of_mains_cons sid chars m [] hmain,
      analyzerCharRefs_filter_main, analyzerCharRefs_filter_not_main, hm]
  rfl

lemma docsFrom_agree (scenes : List Scene)
    (h : ∀ s ∈ scenes, s.characters.countP (fun c => c.role == "Main") = 1) :
    ∀ k : Nat, generateDocsFrom scenes k
      = (sequenceFormatFrom scenes k).map
          (fun p => (p.1, p.2.filter (fun q => q.1.role == "Main")
                          ++ p.2.filter (fun q => !(q.1.role == "Main")))) := by
  induction scenes with
  | nil => intro k; rfl
  | cons s t ih =>
    intro k
    have hs := h s (by simp)
    have ht : ∀ x ∈ t, x.characters.countP (fun c => c.role == "Main") = 1 :=
      fun x hx => h x (by simp [hx])
    simp [generateDocsFrom, sequenceFormatFrom, charRefs_agree _ _ hs, ih ht]

/- ----------------------------------------------------------------------
Claim theorems.
---------------------------------------------------------------------- -/

/-- Claim C1: for every list of chapter results, the sequencer output has
length equal to the sum of per-chapter scene counts; the assigned global
indices are exactly the dense, monotonic run 1..N with no gaps or repeats,
in chapter order then within-chapter scene order; and the underlying
scenes are exactly the chapter-order concatenation of the input, with no
reordering or deduplication. -/
theorem C1_sequencer_dense_indices (chapters : List (List Scene)) :
    (sequenceScenes chapters).length = (chapters.map List.length).sum
    ∧ (sequenceScenes chapters).map Prod.fst = List.range' 1 ((chapters.map List.length).sum)
    ∧ (sequenceScenes chapters).map Prod.snd = chapters.flatten := by
  have hall := allScenes_eq_flatten chapters
  refine ⟨?_, ?_, ?_⟩
  · rw [sequenceScenes, hall, assignIndices_length, List.length_flatten]
  · rw [sequenceScenes, hall, assignIndices_map_fst, List.length_flatten]
  · rw [sequenceScenes, hall, assignIndices_map_snd]

/-- Claim C2 (counterexample): in the scene with characters X tagged Main,
Y tagged Main and C tagged Secondary, the document generator of src/app.py
assigns the main reference to X and sc01 to C, while Y, a remaining
character, receives no reference at all; the claimed assignment, under
which the remaining characters Y and C receive sc01 and sc02, does not
hold. -/
theorem C2_counterexample_extra_main_dropped :
    appCharRefs "ch01" [charX, charY, charC] = [(charX, "ch01mc01"), (charC, "ch01sc01")]
    ∧ appCharRefs "ch01" [charX, charY, charC]
      ≠ [(charX, "ch01mc01"), (charY, "ch01sc01"), (charC, "ch01sc02")] :=
  ⟨by decide, by decide⟩

/-- Claim C2 (amended): for every scene, the main reference scene_id mc01
is assigned to the first character whose role is Main; if no character is
tagged Main, it falls back to the first character in list order; the
remaining characters not tagged Main receive secondary references sc01,
sc02 and so on in their original list order (Main-tagged characters other
than the selected one receive no reference). -/
theorem C2_main_selection_and_secondary_order (sid : String) (chars : List Character) :
    (∀ m : Character, chars.find? (fun c => c.role == "Main") = some m →
        appCharRefs sid chars = (m, sid ++ "mc01") :: appSecRefs sid (appOtherChars chars) 1)
    ∧ (chars.find? (fun c => c.role == "Main") = none →
        ∀ (c : Character) (cs : List Character), chars = c :: cs →
          appCharRefs sid chars = (c, sid ++ "mc01") :: appSecRefs sid cs 1) := by
  constructor
  · intro m h
    rcases appMainChars_of_find_some chars m h with ⟨rest, hrest⟩
    exact appCharRefs_of_mains_cons sid chars m rest hrest
  · intro h c cs hcc
    subst hcc
    exact appCharRefs_of_mains_nil_cons sid c cs (appMainChars_of_find_none _ h)

/-- Witness for claim C2: at the scene with characters B Secondary, A
Main, C Secondary the explicitly tagged A receives mc01 and B, C keep
their original order as sc01, sc02; at the scene with characters B, C
both Secondary the fallback selects B and numbers C only. -/
theorem C2_main_selection_and_secondary_order_witness :
    appCharRefs "ch01" [charB, charA, charC]
      = (charA, "ch01" ++ "mc01") :: appSecRefs "ch01" (appOtherChars [charB, charA, charC]) 1
    ∧ appCharRefs "ch01" [charB, charC]
      = (charB, "ch01" ++ "mc01") :: appSecRefs "ch01" [charC] 1 :=
  ⟨(C2_main_selection_and_secondary_order "ch01" [charB, charA, charC]).1 charA (by decide),
   (C2_main_selection_and_secondary_order "ch01" [charB, charC]).2 (by decide) charB [charC] rfl⟩

/-- Claim C3 (counterexample): in a scene whose characters X and Y are
both tagged Main, the analyzer reference loop of src/analyzer.py assigns
the mc01 reference to both of them, so two main references are produced,
not exactly one. -/
theorem C3_counterexample_two_main_refs :
    (analyzerCharRefs "ch01" [charX, charY] 1).countP (fun q => q.2 == "ch01" ++ "mc01") = 2
    ∧ ¬ (analyzerCharRefs "ch01" [charX, charY] 1).countP (fun q => q.2 == "ch01" ++ "mc01") = 1 :=
  ⟨by decide, by decide⟩

/-- Claim C3 (amended): in the document generator of src/app.py every
scene with at least one character produces exactly one main reference and
its secondary references are dense from base 1 in order, never skipping;
in the analyzer loop of src/analyzer.py the number of main references
equals the number of Main-tagged characters (each receives scene_id mc01),
while the secondary references are again dense from base 1, never
skipping. -/
theorem C3_main_ref_count_and_dense_secondaries (sid : String) (chars : List Character) :
    (chars ≠ [] →
      (appCharRefs sid chars).countP (fun q => q.2 == sid ++ "mc01") = 1)
    ∧ ((appCharRefs sid chars).filter (fun q => !(q.2 == sid ++ "mc01"))).map Prod.snd
        = secIds sid 1 (appSelect chars).2.length
    ∧ (analyzerCharRefs sid chars 1).countP (fun q => q.2 == sid ++ "mc01")
        = chars.countP (fun c => c.role == "Main")
    ∧ ((analyzerCharRefs sid chars 1).filter (fun q => !(q.2 == sid ++ "mc01"))).map Prod.snd
        = secIds sid 1 (chars.countP (fun c => !(c.role == "Main"))) := by
  refine ⟨?_, ?_, analyzerCharRefs_countP_mc sid chars 1, ?_⟩
  · intro hne
    cases hm : appMainChars chars with
    | nil =>
      cases chars with
      | nil => exact absurd rfl hne
      | cons c cs =>
        rw [appCharRefs_of_mains_nil_cons sid c cs hm]
        simp [List.countP_cons, appSecRefs_countP_mc]
    | cons m rest =>
      rw [appCharRefs_of_mains_cons sid chars m rest hm]
      simp [List.countP_cons, appSecRefs_countP_mc]
  · cases hm : appMainChars chars with
    | nil =>
      cases chars with
      | nil => rfl
      | cons c cs =>
        rw [appCharRefs_of_mains_nil_cons sid c cs hm, appSelect_of_mains_nil_cons c cs hm]
        have hmc : ((fun q => !(q.2 == sid ++ "mc01")) (c, sid ++ "mc01")) = false := by simp
        simp [List.filter_cons, hmc, appSecRefs_filter_not_mc, appSecRefs_map_snd]
    | cons m rest =>
      rw [appCharRefs_of_mains_cons sid chars m rest hm, appSelect_of_mains_cons chars m rest hm]
      have hmc : ((fun q => !(q.2 == sid ++ "mc01")) (m, sid ++ "mc01")) = false := by simp
      simp [List.filter_cons, hmc, appSecRefs_filter_not_mc, appSecRefs_map_snd]
  · rw [analyzerCharRefs_filter_not_mcref, appSecRefs_map_snd, List.countP_eq_length_filter]

/-- Witness for claim C3: a scene with the single Secondary character B
produces exactly one main reference in the document generator. -/
theorem C3_main_ref_count_and_dense_secondaries_witness :
    (appCharRefs "ch01" [charB]).countP (fun q => q.2 == "ch01" ++ "mc01") = 1 :=
  (C3_main_ref_count_and_dense_secondaries "ch01" [charB]).1 (by decide)

/-- Claim C4 (counterexample): an Environment decoded with a present but
empty negative_prompt keeps the empty string; the repair does not replace
a present empty value with the canonical constant. -/
theorem C4_counterexample_empty_preserved :
    validateSkybox "scenes.0.skybox_environment"
        (J.obj [("visual_prompt", J.str "v"), ("environment_type", J.str "Indoors"),
                ("negative_prompt", J.str "")])
      = Except.ok { visual_prompt := "v", negative_prompt := "", environment_type := "Indoors" }
    ∧ ("" : String) ≠ SKYBOX_NEGATIVE_PROMPT :=
  ⟨rfl, by decide⟩

/-- Claim C4 (amended): for every decoded Environment, the negative-prompt
repair sets negative_prompt to the fixed canonical constant exactly when
the field is absent, preserves any present model-supplied value unchanged
(including an empty one), and is idempotent: applying the default
injection to an already injected value changes nothing. -/
theorem C4_negative_prompt_repair (path vp et s : String) :
    (∀ np : Option String, repairNegativePrompt (some (repairNegativePrompt np)) = repairNegativePrompt np)
    ∧ repairNegativePrompt none = SKYBOX_NEGATIVE_PROMPT
    ∧ repairNegativePrompt (some s) = s
    ∧ validateSkybox path (J.obj [("visual_prompt", J.str vp), ("environment_type", J.str et)])
      = Except.ok { visual_prompt := vp, negative_prompt := SKYBOX_NEGATIVE_PROMPT, environment_type := et }
    ∧ validateSkybox path (J.obj [("visual_prompt", J.str vp), ("environment_type", J.str et),
                                  ("negative_prompt", J.str s)])
      = Except.ok { visual_prompt := vp, negative_prompt := s, environment_type := et }
    ∧ mkSkyboxApp vp et none
      = { visual_prompt := vp, negative_prompt := SKYBOX_NEGATIVE_PROMPT, environment_type := et }
    ∧ mkSkyboxApp vp et (some s)
      = { visual_prompt := vp, negative_prompt := s, environment_type := et } := by
  refine ⟨?_, rfl, rfl, rfl, rfl, rfl, rfl⟩
  intro np
  cases np <;> rfl

/-- Claim C5: the derived scene identifier is the string ch followed by
the global index zero padded to at least two digits: index 1 renders as
ch01, index 100 renders as ch100, every index of two or more digits is
rendered with its full decimal digits and never truncated, and every
single-digit index receives exactly one leading zero. -/
theorem C5_scene_id_zero_padded :
    sceneId 1 = "ch01" ∧ sceneId 100 = "ch100"
    ∧ (∀ n : Nat, 10 ≤ n → sceneId n = "ch" ++ Nat.repr n)
    ∧ (∀ n : Nat, n < 10 → sceneId n = "ch" ++ ("0" ++ Nat.repr n)) := by
  refine ⟨by decide, by decide, ?_, ?_⟩
  · intro n hn
    unfold sceneId formatPad2
    rw [if_neg (by omega)]
  · intro n hn
    unfold sceneId formatPad2
    rw [if_pos hn]

/-- Witness for claim C5: the general padding cases evaluated at the
indices 100 and 7. -/
theorem C5_scene_id_zero_padded_witness :
    sceneId 100 = "ch" ++ Nat.repr 100 ∧ sceneId 7 = "ch" ++ ("0" ++ Nat.repr 7) :=
  ⟨C5_scene_id_zero_padded.2.2.1 100 (by decide),
   C5_scene_id_zero_padded.2.2.2 7 (by decide)⟩

/-- Claim C6: for every decoded chapter payload on which validation fails,
the analysis boundary returns an empty scene list together with the error
diagnostic it surfaces, and, being a total function, never raises past the
boundary; the chapter loop of the caller processes every chapter
independently, so the failing chapter leaves the processing of all other
chapters unaffected. -/
theorem C6_validation_failure_non_fatal (payload : List (String × J)) (e : String)
    (h : validateChapterOutput (J.obj payload) = Except.error e) :
    (analyze_chapter_content payload).scenes = []
    ∧ (analyze_chapter_content payload).messages = ["Data Validation Failed: " ++ e]
    ∧ ∀ pre post : List (List (String × J)),
        processChapters (pre ++ payload :: post)
          = processChapters pre ++ analyze_chapter_content payload :: processChapters post := by
  refine ⟨?_, ?_, ?_⟩
  · simp [analyze_chapter_content, h]
  · simp [analyze_chapter_content, h]
  · intro pre post
    simp [processChapters]

/-- Witness for claim C6: the empty payload record is missing the scenes
field, validation fails, the boundary returns no scenes plus the
diagnostic, and a surrounding chapter list is processed chapter by
chapter. -/
theorem C6_validation_failure_non_fatal_witness :
    (analyze_chapter_content []).scenes = []
    ∧ (analyze_chapter_content []).messages = ["Data Validation Failed: " ++ "scenes: Field required"]
    ∧ processChapters ([demoPayload] ++ [] :: [demoPayload])
        = processChapters [demoPayload] ++ analyze_chapter_content [] :: processChapters [demoPayload] :=
  ⟨(C6_validation_failure_non_fatal [] "scenes: Field required" rfl).1,
   (C6_validation_failure_non_fatal [] "scenes: Field required" rfl).2.1,
   (C6_validation_failure_non_fatal [] "scenes: Field required" rfl).2.2 [demoPayload] [demoPayload]⟩

/-- Claim C7 (counterexample): a character whose role is the string
Villain, outside the documented enumeration Main or Secondary, passes
validation, and a skybox whose environment_type is Cave, outside the
documented enumeration Indoors or Outdoors, passes validation as well:
the role and environment_type fields are declared as plain strings in
src/analyzer.py lines 16-29, so wrong enumerated values are not
rejected. -/
theorem C7_counterexample_enum_not_checked :
    validateCharacter "scenes.0.characters.0"
        (J.obj [("name", J.str "V"), ("role", J.str "Villain"), ("visual_description", J.str "d")])
      = Except.ok { name := "V", role := "Villain", visual_description := "d" }
    ∧ ("Villain" : String) ≠ "Main" ∧ ("Villain" : String) ≠ "Secondary"
    ∧ validateSkybox "scenes.0.skybox_environment"
        (J.obj [("visual_prompt", J.str "v"), ("environment_type", J.str "Cave"),
                ("negative_prompt", J.str "n")])
      = Except.ok { visual_prompt := "v", negative_prompt := "n", environment_type := "Cave" }
    ∧ ("Cave" : String) ≠ "Indoors" ∧ ("Cave" : String) ≠ "Outdoors" :=
  ⟨rfl, by decide, by decide, rfl, by decide, by decide⟩

/-- Claim C7 (amended): schema validation either returns a fully-typed
record or fails with an error naming the offending field path; it fails on
a missing required field and on a wrongly typed element, but the role and
environment_type fields are validated only as plain strings, so any string
value is accepted for them. -/
theorem C7_schema_validation_structure (path n r v : String) :
    validateCharacter path (J.obj [("name", J.str n), ("role", J.str r), ("visual_description", J.str v)])
      = Except.ok { name := n, role := r, visual_description := v }
    ∧ validateCharacter path (J.obj [("role", J.str r), ("visual_description", J.str v)])
      = Except.error (path ++ "." ++ "name" ++ ": Field required")
    ∧ validateCharacter path (J.obj [("name", J.num 3), ("role", J.str r), ("visual_description", J.str v)])
      = Except.error (path ++ "." ++ "name" ++ ": Input should be a valid string")
    ∧ validateScene path (J.obj [("location", J.str v), ("chapter_beat", J.str v),
                                 ("trigger_sentence", J.str v)])
      = Except.error (path ++ ".characters: Field required") :=
  ⟨rfl, rfl, rfl, rfl⟩

/-- Claim C8: for every decoded chapter payload that validates with fewer
scenes than the minimum of two, the analysis boundary flags the coverage
warning but still accepts and returns exactly the validated scenes, and
with the minimum reached it returns them with no warning; in both cases
the returned scenes are those of the single validation pass, with no
renewed model invocation. -/
theorem C8_coverage_warning_accepts (payload : List (String × J)) (out : ChapterOutput)
    (h : validateChapterOutput (J.obj payload) = Except.ok out) :
    (analyze_chapter_content payload).scenes = out.scenes
    ∧ (out.scenes.length < 2 → (analyze_chapter_content payload).messages = [COVERAGE_WARNING])
    ∧ (2 ≤ out.scenes.length → (analyze_chapter_content payload).messages = []) := by
  refine ⟨?_, ?_, ?_⟩
  · simp [analyze_chapter_content, h]
  · intro hlt
    simp [analyze_chapter_content, h, hlt]
  · intro hge
    simp [analyze_chapter_content, h]
    omega

/-- Witness for claim C8: the demonstration payload validates to a single
scene, below the minimum of two; the boundary accepts and returns that
scene and flags the coverage warning. -/
theorem C8_coverage_warning_accepts_witness :
    (analyze_chapter_content demoPayload).scenes = demoOut.scenes
    ∧ (analyze_chapter_content demoPayload).messages = [COVERAGE_WARNING] := by
  have h := C8_coverage_warning_accepts demoPayload demoOut rfl
  exact ⟨h.1, h.2.1 (by decide)⟩

/-- Claim C9 (counterexample): the instruction builder of src/analyzer.py
takes only the book title; at the concrete title Winnie-the-Pooh the
generated instruction text hard-codes the minimum-scene-count rule with
the literal TWO and contains no occurrence of THREE, so a configured
minimum of three scenes is not encoded by any input of the builder. -/
theorem C9_counterexample_minimum_hardcoded :
    strContains (generate_system_prompt "Winnie-the-Pooh")
        "Find at least TWO scenes in this text chunk." = true
    ∧ strContains (generate_system_prompt "Winnie-the-Pooh") "THREE" = false
    ∧ generate_system_prompt "Winnie-the-Pooh" = promptPre ++ "Winnie-the-Pooh" ++ promptPost :=
  ⟨by decide, by decide, rfl⟩

/-- Claim C9 (amended): the instruction builder is a pure function of the
book title alone, with no minimum-scene-count parameter; for every title
the generated instruction text encodes the minimum-scene-count rule with
the fixed literal value two. -/
theorem C9_minimum_rule_fixed_literal_two (book_title : String) :
    generate_system_prompt book_title = promptPre ++ book_title ++ promptPost
    ∧ strContains promptPost "Find at least TWO scenes in this text chunk." = true :=
  ⟨rfl, by decide⟩

/-- Claim C10: for every scene list in which each scene has exactly one
character tagged Main, the reference derivation of sequence_and_format in
src/analyzer.py and that of generate_documents in src/app.py agree: both
assign the same scene identifiers, the same mc01 reference to the same
Main character, and the same dense secondary references to the same
remaining characters in the same order (the right hand side reads the
analyzer assignment back in the Main-first layout that the app emits). -/
theorem C10_reference_derivations_agree (scenes : List Scene)
    (h : ∀ s ∈ scenes, s.characters.countP (fun c => c.role == "Main") = 1) :
    generate_documents scenes
      = (sequence_and_format scenes).map
          (fun p => (p.1, p.2.filter (fun q => q.1.role == "Main")
                          ++ p.2.filter (fun q => !(q.1.role == "Main")))) :=
  docsFrom_agree scenes h 1

/-- Witness for claim C10: the two derivations agree on the two
demonstration scenes, each of which has exactly one Main character. -/
theorem C10_reference_derivations_agree_witness :
    generate_documents [demoScene1, demoScene2]
      = (sequence_and_format [demoScene1, demoScene2]).map
          (fun p => (p.1, p.2.filter (fun q => q.1.role == "Main")
                          ++ p.2.filter (fun q => !(q.1.role == "Main")))) :=
  C10_reference_derivations_agree [demoScene1, demoScene2] (by decide)
